import Mathlib

set_option autoImplicit false
set_option linter.unusedVariables false

/-
Verification of the Bloc multiplayer room/session coordination engine.

The repository contains two divergent socket-server implementations:
 * `src/pages/api/socket/index.ts` — embedded below in namespace `PagesApi`;
 * `src/unnamed/part_001` (custom Node server) — embedded in namespace `Srv`.
Each handler is translated as a pure function from the inbound request plus
the current state (the rooms map, the caller's socket-attached room code) to
the next state, the list of emitted broadcasts, and the callback result.
Randomness (`Math.random`) and the clock (`Date.now`) are passed in as
explicit draw functions / a timestamp.
-/

namespace Bloc

/-- Room life-cycle state: the JS code stores the strings
"waiting" / "playing" / "finished". -/
inductive GameState where
  | waiting
  | playing
  | finished
deriving DecidableEq, Repr

/-- Shape of a game piece: a 0/1 grid, as in the JS shape catalogs. -/
abbrev Shape := List (List Nat)

/-- Opaque board snapshot payload relayed between players. -/
abbrev Board := List (List Int)

/-- Piece value object: id, shape and color, as produced by the generators. -/
structure Piece where
  id : Nat
  shape : Shape
  color : String
deriving DecidableEq, Repr

/-- Lookup in a JS `Map` keyed by room code (insertion-ordered assoc list);
models `rooms.get(code)` / `rooms.has(code)`. -/
def lookupRoom {ρ : Type} (rs : List (String × ρ)) (c : String) : Option ρ :=
  (rs.find? (fun e => e.1 == c)).map (fun e => e.2)

/-- Models `rooms.set(code, room)`: replace the value at an existing key,
else append a new entry (JS `Map.set` keeps insertion order). -/
def storeRoom {ρ : Type} : List (String × ρ) → String → ρ → List (String × ρ)
  | [], c, r => [(c, r)]
  | e :: rest, c, r => if e.1 == c then (c, r) :: rest else e :: storeRoom rest c r

/-- Models `rooms.delete(code)`: remove the entry at that key.  A JS `Map`
holds each key at most once, so deleting the key is dropping every entry
carrying it. -/
def removeRoom {ρ : Type} (rs : List (String × ρ)) (c : String) : List (String × ρ) :=
  rs.filter (fun e => !(e.1 == c))

/-! ## Embedding of `src/pages/api/socket/index.ts` -/

namespace PagesApi

/-- Player record as stored by the pages-API server (no score/board fields). -/
structure Player where
  id : Nat
  username : String
  isReady : Bool
  isHost : Bool
deriving DecidableEq, Repr

/-- Room record: `{ roomCode, players, gameState }`. -/
structure Room where
  roomCode : String
  players : List Player
  gameState : GameState
deriving DecidableEq, Repr

/-- The in-memory `rooms` map of the pages-API server. -/
abbrev RoomsMap := List (String × Room)

/-- Broadcasts the pages-API server can emit to a socket.io room.
`excludeSender` on `opponentUpdated` records whether the emission used
`socket.to(room)` (sender excluded) or `io.to(room)` (all members). -/
inductive Event where
  | roomUpdated (code : String) (room : Room)
  | gameStarted (code : String) (room : Room) (initialPieces : List Piece)
  | opponentUpdated (code : String) (excludeSender : Bool) (playerId : Nat)
      (board : Board) (score : Int)
  | gameFinished (code : String) (winnerId : Nat) (winnerName : String)
  | playerLeft (code : String) (playerId : Nat) (room : Room)
  | gameAborted (code : String) (reason : String)
deriving DecidableEq, Repr

/-- Result of a handler: next rooms map, next `socket.data.roomCode`,
emitted broadcasts (in order), and the callback result. -/
structure Out (ρ : Type) where
  rooms : RoomsMap
  sockRoom : Option String
  events : List Event
  result : ρ
deriving DecidableEq, Repr

/-- Callback payload for createRoom/joinRoom: `{success, roomCode}` or
`{success:false, error}`. -/
inductive CodeResult where
  | ok (roomCode : String)
  | fail (error : String)
deriving DecidableEq, Repr

/-- Callback payload for toggleReady: `{success, isReady}` or an error. -/
inductive ToggleResult where
  | ok (isReady : Bool)
  | fail (error : String)
deriving DecidableEq, Repr

/-- Callback payload for getRoomInfo: `{success, roomInfo}` or an error. -/
inductive InfoResult where
  | ok (roomInfo : Room)
  | fail (error : String)
deriving DecidableEq, Repr

/-- The alphabet `'ABCDEFGHIJKLMNOPQRSTUVWXYZ'` of `generateRoomCode`. -/
def chars : List Char :=
  ['A','B','C','D','E','F','G','H','I','J','K','L','M',
   'N','O','P','Q','R','S','T','U','V','W','X','Y','Z']

/-- Models `generateRoomCode()`: four draws of
`chars.charAt(floor(random()*26))`, concatenated; `draws i` is the i-th
`Math.random` outcome.  Note the function never consults the rooms map. -/
def generateRoomCode (draws : Nat → Fin 26) : String :=
  ⟨(List.range 4).map (fun i => chars.get (draws i))⟩

/-- Shape catalog of `generateRandomPieces` (10 shapes). -/
def shapes : List Shape :=
  [[[1,1,1], [0,1,0]],
   [[1,1], [1,1]],
   [[1,1,1,1]],
   [[1,1,0], [0,1,1]],
   [[0,1,1], [1,1,0]],
   [[1,0], [1,0], [1,1]],
   [[0,1], [0,1], [1,1]],
   [[1]],
   [[1,1]],
   [[1],[1]]]

/-- Color catalog of `generateRandomPieces` (7 colors). -/
def colors : List String :=
  ["blue", "green", "red", "purple", "orange", "teal", "yellow"]

/-- Models `generateRandomPieces(count)`: `count` pieces with
`id = Date.now() + i` and independently drawn shape and color. -/
def generateRandomPieces (dateNow : Nat) (shapeDraw : Nat → Fin 10)
    (colorDraw : Nat → Fin 7) (count : Nat) : List Piece :=
  (List.range count).map (fun i =>
    { id := dateNow + i, shape := shapes.get (shapeDraw i),
      color := colors.get (colorDraw i) })

/-- Models the `createRoom` handler: generate a code, store a fresh room with
the caller as host, join the socket room, broadcast `roomUpdated`. -/
def createRoom (sid : Nat) (username : String) (draws : Nat → Fin 26)
    (sockRoom : Option String) (rooms : RoomsMap) : Out CodeResult :=
  let roomCode := generateRoomCode draws
  let roomData : Room :=
    { roomCode := roomCode,
      players := [{ id := sid, username := username, isReady := false, isHost := true }],
      gameState := .waiting }
  { rooms := storeRoom rooms roomCode roomData,
    sockRoom := some roomCode,
    events := [.roomUpdated roomCode roomData],
    result := .ok roomCode }

/-- Models the `joinRoom` handler of the pages-API server.  Note: it rejects
only `gameState === 'playing'`; a `finished` room passes that check. -/
def joinRoom (sid : Nat) (username roomCode : String)
    (sockRoom : Option String) (rooms : RoomsMap) : Out CodeResult :=
  match lookupRoom rooms roomCode with
  | none =>
    { rooms := rooms, sockRoom := sockRoom, events := [],
      result := .fail "Room not found" }
  | some roomData =>
    if roomData.gameState = .playing then
      { rooms := rooms, sockRoom := sockRoom, events := [],
        result := .fail "Game already in progress" }
    else if 2 ≤ roomData.players.length then
      { rooms := rooms, sockRoom := sockRoom, events := [],
        result := .fail "Room is full" }
    else
      let newRoom : Room :=
        { roomData with players := roomData.players ++
            [{ id := sid, username := username, isReady := false, isHost := false }] }
      { rooms := storeRoom rooms roomCode newRoom,
        sockRoom := some roomCode,
        events := [.roomUpdated roomCode newRoom],
        result := .ok roomCode }

/-- Flip `isReady` on the first player with the given id (JS `find` returns a
reference that is then mutated in place). -/
def toggleFirst : List Player → Nat → List Player
  | [], _ => []
  | p :: ps, sid =>
    if p.id == sid then { p with isReady := !p.isReady } :: ps
    else p :: toggleFirst ps sid

/-- Models the `toggleReady` handler: flips the caller's `isReady`, broadcasts
`roomUpdated`, and returns the new value. -/
def toggleReady (sid : Nat) (sockRoom : Option String) (rooms : RoomsMap) :
    Out ToggleResult :=
  match sockRoom with
  | none =>
    { rooms := rooms, sockRoom := sockRoom, events := [],
      result := .fail "Room not found" }
  | some roomCode =>
    match lookupRoom rooms roomCode with
    | none =>
      { rooms := rooms, sockRoom := sockRoom, events := [],
        result := .fail "Room not found" }
    | some roomData =>
      match roomData.players.find? (fun p => p.id == sid) with
      | none =>
        { rooms := rooms, sockRoom := sockRoom, events := [],
          result := .fail "Player not found in room" }
      | some player =>
        let newRoom : Room := { roomData with players := toggleFirst roomData.players sid }
        { rooms := storeRoom rooms roomCode newRoom,
          sockRoom := sockRoom,
          events := [.roomUpdated roomCode newRoom],
          result := .ok (!player.isReady) }

/-- Models the `startGame` handler of the pages-API server.  Guards: room
resolvable, requester found and host, every player ready.  There is NO check
on the number of players. -/
def startGame (sid : Nat) (sockRoom : Option String) (rooms : RoomsMap)
    (dateNow : Nat) (shapeDraw : Nat → Fin 10) (colorDraw : Nat → Fin 7) :
    Out Unit :=
  match sockRoom with
  | none => { rooms := rooms, sockRoom := sockRoom, events := [], result := () }
  | some roomCode =>
    match lookupRoom rooms roomCode with
    | none => { rooms := rooms, sockRoom := sockRoom, events := [], result := () }
    | some roomData =>
      match roomData.players.find? (fun p => p.id == sid) with
      | none => { rooms := rooms, sockRoom := sockRoom, events := [], result := () }
      | some player =>
        if !player.isHost then
          { rooms := rooms, sockRoom := sockRoom, events := [], result := () }
        else if !(roomData.players.all (fun p => p.isReady)) then
          { rooms := rooms, sockRoom := sockRoom, events := [], result := () }
        else
          let newRoom : Room := { roomData with gameState := .playing }
          let initialPieces := generateRandomPieces dateNow shapeDraw colorDraw 3
          { rooms := storeRoom rooms roomCode newRoom,
            sockRoom := sockRoom,
            events := [.gameStarted roomCode newRoom initialPieces],
            result := () }

/-- Models the `updateGameState` handler: if the socket's room resolves, relay
`opponentUpdated` via `socket.to(room)` (sender excluded).  No state change
and no `gameState` check. -/
def updateGameState (sid : Nat) (sockRoom : Option String) (rooms : RoomsMap)
    (board : Board) (score : Int) : Out Unit :=
  match sockRoom with
  | none => { rooms := rooms, sockRoom := sockRoom, events := [], result := () }
  | some roomCode =>
    match lookupRoom rooms roomCode with
    | none => { rooms := rooms, sockRoom := sockRoom, events := [], result := () }
    | some _ =>
      { rooms := rooms, sockRoom := sockRoom,
        events := [.opponentUpdated roomCode true sid board score],
        result := () }

/-- Models the `gameOver` handler of the pages-API server: the FIRST player to
send `gameOver` immediately sets the room to `finished` and is announced as
the winner, regardless of the other player or of any score. -/
def gameOver (sid : Nat) (sockRoom : Option String) (rooms : RoomsMap) :
    Out Unit :=
  match sockRoom with
  | none => { rooms := rooms, sockRoom := sockRoom, events := [], result := () }
  | some roomCode =>
    match lookupRoom rooms roomCode with
    | none => { rooms := rooms, sockRoom := sockRoom, events := [], result := () }
    | some roomData =>
      match roomData.players.find? (fun p => p.id == sid) with
      | none => { rooms := rooms, sockRoom := sockRoom, events := [], result := () }
      | some player =>
        let newRoom : Room := { roomData with gameState := .finished }
        { rooms := storeRoom rooms roomCode newRoom,
          sockRoom := sockRoom,
          events := [.gameFinished roomCode player.id player.username],
          result := () }

/-- Remove the first player with the given id, returning it and the remaining
list (models `findIndex` + `splice(playerIndex, 1)`). -/
def extractFirst : List Player → Nat → Option (Player × List Player)
  | [], _ => none
  | p :: ps, sid =>
    if p.id == sid then some (p, ps)
    else (extractFirst ps sid).map (fun q => (q.1, p :: q.2))

/-- Set `isHost := true` on the first remaining player
(models `roomData.players[0].isHost = true`). -/
def setHostFirst : List Player → List Player
  | [] => []
  | p :: ps => { p with isHost := true } :: ps

/-- Models `handlePlayerDisconnect` of the pages-API server: remove the
caller's player; delete the room if it became empty; else reassign host if
needed, broadcast `playerLeft`, and if the game was in progress revert to
`waiting` and broadcast `gameAborted` with the fixed reason string. -/
def handlePlayerDisconnect (sid : Nat) (sockRoom : Option String)
    (rooms : RoomsMap) : Out Unit :=
  match sockRoom with
  | none => { rooms := rooms, sockRoom := sockRoom, events := [], result := () }
  | some roomCode =>
    match lookupRoom rooms roomCode with
    | none => { rooms := rooms, sockRoom := sockRoom, events := [], result := () }
    | some roomData =>
      match extractFirst roomData.players sid with
      | none =>
        -- `playerIndex === -1`: return before clearing `socket.data.roomCode`
        { rooms := rooms, sockRoom := sockRoom, events := [], result := () }
      | some (leaving, remaining) =>
        if remaining.isEmpty then
          { rooms := removeRoom rooms roomCode, sockRoom := none,
            events := [], result := () }
        else
          let remaining' := if leaving.isHost then setHostFirst remaining else remaining
          let room1 : Room := { roomData with players := remaining' }
          let rooms1 := storeRoom rooms roomCode room1
          if room1.gameState = .playing then
            let room2 : Room := { room1 with gameState := .waiting }
            { rooms := storeRoom rooms1 roomCode room2,
              sockRoom := none,
              events := [.playerLeft roomCode sid room1,
                         .gameAborted roomCode "A player disconnected"],
              result := () }
          else
            { rooms := rooms1, sockRoom := none,
              events := [.playerLeft roomCode sid room1],
              result := () }

/-- Models the `getRoomInfo` handler of the pages-API server: fails with
"Room not found" when the code is absent, else joins the socket room and
returns the room data. -/
def getRoomInfoHandler (sid : Nat) (roomCode : String)
    (sockRoom : Option String) (rooms : RoomsMap) : Out InfoResult :=
  match lookupRoom rooms roomCode with
  | none =>
    { rooms := rooms, sockRoom := sockRoom, events := [],
      result := .fail "Room not found" }
  | some roomData =>
    { rooms := rooms, sockRoom := some roomCode, events := [],
      result := .ok roomData }

end PagesApi

/-! ## Embedding of `src/unnamed/part_001` (custom Node server) -/

namespace Srv

/-- Player record as stored by the custom server: also carries the last
board snapshot, the score, a personal piece list, and the `gameOver` flag
(undefined in JS until first set, i.e. initially `false`). -/
structure Player where
  id : Nat
  username : String
  isReady : Bool
  isHost : Bool
  board : Option Board
  score : Int
  pieces : List Piece
  gameOver : Bool
deriving DecidableEq, Repr

/-- Room record of the custom server: `{ players, gameState, currentPieces }`
(the code is the map key, not a room field). -/
structure Room where
  players : List Player
  gameState : GameState
  currentPieces : Option (List Piece)
deriving DecidableEq, Repr

/-- The in-memory `gameRooms` map of the custom server. -/
abbrev RoomsMap := List (String × Room)

/-- Projection of a player sent to clients by `getRoomInfo`. -/
structure PlayerInfo where
  id : Nat
  username : String
  isReady : Bool
  isHost : Bool
deriving DecidableEq, Repr

/-- Projection of a room sent to clients by `getRoomInfo`. -/
structure RoomInfo where
  roomCode : String
  players : List PlayerInfo
  gameState : GameState
deriving DecidableEq, Repr

/-- Models the helper `getRoomInfo(roomCode)`: `null` when absent, else the
client-facing projection of the room. -/
def getRoomInfo (rooms : RoomsMap) (roomCode : String) : Option RoomInfo :=
  (lookupRoom rooms roomCode).map (fun room =>
    { roomCode := roomCode,
      players := room.players.map (fun p =>
        { id := p.id, username := p.username, isReady := p.isReady, isHost := p.isHost }),
      gameState := room.gameState })

/-- Broadcasts the custom server can emit.  `excludeSender` on
`opponentUpdated` records `socket.to` vs `io.to`; the custom server uses
`io.to` (all members, sender included). -/
inductive Event where
  | roomUpdated (code : String) (info : Option RoomInfo)
  | gameStarted (code : String) (info : Option RoomInfo) (initialPieces : List Piece)
  | opponentUpdated (code : String) (excludeSender : Bool) (playerId : Nat)
      (board : Board) (score : Int)
  | gameFinished (code : String) (winnerId : Nat) (winnerName : String)
      (scores : List (Nat × String × Int))
  | playerLeft (code : String) (playerId : Nat) (info : Option RoomInfo)
  | gameAborted (code : String) (reason : String)
deriving DecidableEq, Repr

/-- Result of a handler of the custom server: next rooms map, next
`socket.roomCode`, emitted broadcasts, callback result. -/
structure Out (ρ : Type) where
  rooms : RoomsMap
  sockRoom : Option String
  events : List Event
  result : ρ
deriving DecidableEq, Repr

/-- Callback payload for createRoom/joinRoom of the custom server. -/
inductive CodeResult where
  | ok (roomCode : String)
  | fail (error : String)
deriving DecidableEq, Repr

/-- Callback payload for toggleReady of the custom server: `{success:false}`
carries no error string; when the player is not found NO callback fires,
modelled as an `Option` result with `none`. -/
inductive ToggleResult where
  | ok (isReady : Bool)
  | fail
deriving DecidableEq, Repr

/-- Callback payload for getRoomInfo of the custom server. -/
inductive InfoResult where
  | ok (roomInfo : RoomInfo)
  | fail
deriving DecidableEq, Repr

/-- Upper-cased base-36 digit characters `0-9A-Z`, as produced by
`Number.toString(36).toUpperCase()`. -/
def base36Char (d : Fin 36) : Char :=
  if d.val < 10 then Char.ofNat (48 + d.val) else Char.ofNat (55 + d.val)

/-- Models `generateRoomCode()` of the custom server:
`Math.random().toString(36).substring(2, 8).toUpperCase()` — the first six
base-36 fractional digits of the random draw, upper-cased.  The result has
up to 6 characters drawn from `0-9A-Z`, not 4 characters from `A-Z`. -/
def generateRoomCode (digits : List (Fin 36)) : String :=
  ⟨(digits.take 6).map base36Char⟩

/-- Fresh player record built by createRoom/joinRoom of the custom server. -/
def newPlayer (sid : Nat) (username : String) (host : Bool) : Player :=
  { id := sid, username := username, isReady := false, isHost := host,
    board := none, score := 0, pieces := [], gameOver := false }

/-- Models the `createRoom` handler of the custom server. -/
def createRoom (sid : Nat) (username : String) (digits : List (Fin 36))
    (sockRoom : Option String) (rooms : RoomsMap) : Out CodeResult :=
  let roomCode := generateRoomCode digits
  let rooms' := storeRoom rooms roomCode
    { players := [newPlayer sid username true], gameState := .waiting,
      currentPieces := none }
  { rooms := rooms', sockRoom := some roomCode,
    events := [.roomUpdated roomCode (getRoomInfo rooms' roomCode)],
    result := .ok roomCode }

/-- Models the `joinRoom` handler of the custom server: normalizes the code
to upper case, then rejects absent rooms, any `gameState !== 'waiting'`
(so also `finished`), and full rooms; otherwise appends a non-host,
not-ready player. -/
def joinRoom (sid : Nat) (username roomCode : String)
    (sockRoom : Option String) (rooms : RoomsMap) : Out CodeResult :=
  let norm := roomCode.toUpper
  match lookupRoom rooms norm with
  | none =>
    { rooms := rooms, sockRoom := sockRoom, events := [],
      result := .fail "Room not found" }
  | some room =>
    if room.gameState ≠ .waiting then
      { rooms := rooms, sockRoom := sockRoom, events := [],
        result := .fail "Game already in progress" }
    else if 2 ≤ room.players.length then
      { rooms := rooms, sockRoom := sockRoom, events := [],
        result := .fail "Room is full" }
    else
      let room' : Room := { room with players := room.players ++ [newPlayer sid username false] }
      let rooms' := storeRoom rooms norm room'
      { rooms := rooms', sockRoom := some norm,
        events := [.roomUpdated norm (getRoomInfo rooms' norm)],
        result := .ok norm }

/-- Flip `isReady` on the first player with the given id. -/
def toggleFirst : List Player → Nat → List Player
  | [], _ => []
  | p :: ps, sid =>
    if p.id == sid then { p with isReady := !p.isReady } :: ps
    else p :: toggleFirst ps sid

/-- Models the `toggleReady` handler of the custom server.  A `none` result
means the handler returned without invoking the callback (player absent). -/
def toggleReady (sid : Nat) (sockRoom : Option String) (rooms : RoomsMap) :
    Out (Option ToggleResult) :=
  match sockRoom with
  | none =>
    { rooms := rooms, sockRoom := sockRoom, events := [], result := some .fail }
  | some roomCode =>
    match lookupRoom rooms roomCode with
    | none =>
      { rooms := rooms, sockRoom := sockRoom, events := [], result := some .fail }
    | some room =>
      match room.players.find? (fun p => p.id == sid) with
      | none =>
        { rooms := rooms, sockRoom := sockRoom, events := [], result := none }
      | some player =>
        let room' : Room := { room with players := toggleFirst room.players sid }
        let rooms' := storeRoom rooms roomCode room'
        { rooms := rooms', sockRoom := sockRoom,
          events := [.roomUpdated roomCode (getRoomInfo rooms' roomCode)],
          result := some (.ok (!player.isReady)) }

/-- Shape catalog of `generateInitialPieces` (7 shapes: T, square, line, Z,
S, L, J). -/
def shapes : List Shape :=
  [[[1,1,1], [0,1,0]],
   [[1,1], [1,1]],
   [[1,1,1,1]],
   [[1,1,0], [0,1,1]],
   [[0,1,1], [1,1,0]],
   [[1,0], [1,0], [1,1]],
   [[0,1], [0,1], [1,1]]]

/-- Color catalog of `generateInitialPieces` (7 colors). -/
def colors : List String :=
  ["blue", "green", "red", "purple", "orange", "teal", "yellow"]

/-- Models `generateInitialPieces()`: exactly 3 pieces with
`id = Date.now() + i` and independently drawn shape and color. -/
def generateInitialPieces (dateNow : Nat) (shapeDraw colorDraw : Nat → Fin 7) :
    List Piece :=
  (List.range 3).map (fun i =>
    { id := dateNow + i, shape := shapes.get (shapeDraw i),
      color := colors.get (colorDraw i) })

/-- The fixed fallback batch of `startGame` (dead code in practice, since
`generateInitialPieces` always returns 3 pieces). -/
def fallbackPieces (dateNow : Nat) : List Piece :=
  [{ id := dateNow, shape := [[1,1], [1,1]], color := "blue" },
   { id := dateNow + 1, shape := [[1,1,1], [0,1,0]], color := "green" },
   { id := dateNow + 2, shape := [[1,1,1,1]], color := "red" }]

/-- Models the inner `startGame(roomCode)` function: set `gameState` to
playing, store the generated batch as `currentPieces`, and broadcast
`gameStarted` (with the fallback batch if the generated one were empty)
followed by `roomUpdated`. -/
def doStartGame (roomCode : String) (sockRoom : Option String)
    (rooms : RoomsMap) (dateNow : Nat) (shapeDraw colorDraw : Nat → Fin 7) :
    Out Unit :=
  match lookupRoom rooms roomCode with
  | none => { rooms := rooms, sockRoom := sockRoom, events := [], result := () }
  | some room =>
    let pieces0 := generateInitialPieces dateNow shapeDraw colorDraw
    let room' : Room := { room with gameState := .playing, currentPieces := some pieces0 }
    let rooms' := storeRoom rooms roomCode room'
    let pieces := if pieces0.isEmpty then fallbackPieces dateNow else pieces0
    let info := getRoomInfo rooms' roomCode
    { rooms := rooms', sockRoom := sockRoom,
      events := [.gameStarted roomCode info pieces, .roomUpdated roomCode info],
      result := () }

/-- Models the `startGame` event handler of the custom server: requires the
requester to be present and host, MORE THAN ONE player in the room, and all
players ready; otherwise nothing happens. -/
def startGameHandler (sid : Nat) (sockRoom : Option String) (rooms : RoomsMap)
    (dateNow : Nat) (shapeDraw colorDraw : Nat → Fin 7) : Out Unit :=
  match sockRoom with
  | none => { rooms := rooms, sockRoom := sockRoom, events := [], result := () }
  | some roomCode =>
    match lookupRoom rooms roomCode with
    | none => { rooms := rooms, sockRoom := sockRoom, events := [], result := () }
    | some room =>
      match room.players.find? (fun p => p.id == sid) with
      | none => { rooms := rooms, sockRoom := sockRoom, events := [], result := () }
      | some player =>
        if player.isHost ∧ 1 < room.players.length ∧ room.players.all (fun p => p.isReady) then
          doStartGame roomCode sockRoom rooms dateNow shapeDraw colorDraw
        else
          { rooms := rooms, sockRoom := sockRoom, events := [], result := () }

/-- Store a submitted board/score snapshot on the first player with the
given id (models the in-place mutation `player.board = board;
player.score = score`). -/
def updateFirst : List Player → Nat → Board → Int → List Player
  | [], _, _, _ => []
  | p :: ps, sid, board, score =>
    if p.id == sid then { p with board := some board, score := score } :: ps
    else p :: updateFirst ps sid board score

/-- Models the `updateGameState` handler of the custom server: when the room
resolves, the sender is present and the game is playing, store the snapshot
on the sender and broadcast `opponentUpdated` via `io.to` — to ALL members,
the sender included. -/
def updateGameState (sid : Nat) (sockRoom : Option String) (rooms : RoomsMap)
    (board : Board) (score : Int) : Out Unit :=
  match sockRoom with
  | none => { rooms := rooms, sockRoom := sockRoom, events := [], result := () }
  | some roomCode =>
    match lookupRoom rooms roomCode with
    | none => { rooms := rooms, sockRoom := sockRoom, events := [], result := () }
    | some room =>
      match room.players.find? (fun p => p.id == sid) with
      | none => { rooms := rooms, sockRoom := sockRoom, events := [], result := () }
      | some _ =>
        if room.gameState = .playing then
          let room' : Room := { room with players := updateFirst room.players sid board score }
          { rooms := storeRoom rooms roomCode room',
            sockRoom := sockRoom,
            events := [.opponentUpdated roomCode false sid board score],
            result := () }
        else
          { rooms := rooms, sockRoom := sockRoom, events := [], result := () }

/-- Set `gameOver := true` on the first player with the given id. -/
def setGameOverFirst : List Player → Nat → List Player
  | [], _ => []
  | p :: ps, sid =>
    if p.id == sid then { p with gameOver := true } :: ps
    else p :: setGameOverFirst ps sid

/-- Stable insertion step for the descending-by-score sort: a player is
placed before the first already-sorted player with a lower-or-equal score.
Together with `sortByScoreDesc` this models the stable JS
`sort((a, b) => b.score - a.score)`. -/
def insertByScore (p : Player) : List Player → List Player
  | [] => [p]
  | q :: qs => if q.score ≤ p.score then p :: q :: qs else q :: insertByScore p qs

/-- Stable descending sort by score (JS `Array.prototype.sort` is stable, so
equal scores keep room order). -/
def sortByScoreDesc : List Player → List Player
  | [] => []
  | p :: ps => insertByScore p (sortByScoreDesc ps)

/-- Models `[...room.players].sort((a, b) => b.score - a.score)[0]`. -/
def winnerOf (ps : List Player) : Option Player :=
  (sortByScoreDesc ps).head?

/-- Models the `gameOver` handler of the custom server: mark the sender as
finished; only when EVERY player is finished, set the room to `finished`
and broadcast `gameFinished` with the stable-sort winner and all scores. -/
def gameOver (sid : Nat) (sockRoom : Option String) (rooms : RoomsMap) :
    Out Unit :=
  match sockRoom with
  | none => { rooms := rooms, sockRoom := sockRoom, events := [], result := () }
  | some roomCode =>
    match lookupRoom rooms roomCode with
    | none => { rooms := rooms, sockRoom := sockRoom, events := [], result := () }
    | some room =>
      match room.players.find? (fun p => p.id == sid) with
      | none => { rooms := rooms, sockRoom := sockRoom, events := [], result := () }
      | some _ =>
        let players' := setGameOverFirst room.players sid
        if players'.all (fun p => p.gameOver) then
          let room' : Room := { room with players := players', gameState := .finished }
          match winnerOf players' with
          | some w =>
            { rooms := storeRoom rooms roomCode room',
              sockRoom := sockRoom,
              events := [.gameFinished roomCode w.id w.username
                (players'.map (fun p => (p.id, p.username, p.score)))],
              result := () }
          | none =>
            -- unreachable: the sender is a member, so `players'` is nonempty
            { rooms := storeRoom rooms roomCode room', sockRoom := sockRoom,
              events := [], result := () }
        else
          { rooms := storeRoom rooms roomCode { room with players := players' },
            sockRoom := sockRoom, events := [], result := () }

/-- Remove the first player with the given id, returning it and the rest. -/
def extractFirst : List Player → Nat → Option (Player × List Player)
  | [], _ => none
  | p :: ps, sid =>
    if p.id == sid then some (p, ps)
    else (extractFirst ps sid).map (fun q => (q.1, p :: q.2))

/-- Set `isHost := true` on the first remaining player. -/
def setHostFirst : List Player → List Player
  | [] => []
  | p :: ps => { p with isHost := true } :: ps

/-- Models `handlePlayerDisconnect` of the custom server: remove the caller's
player; delete the room if empty; else reassign host if needed, and if the
game was playing revert to `waiting` and broadcast `gameAborted` whose reason
names the departing player, then broadcast `playerLeft`.  In every branch
with a resolvable room `socket.roomCode` is cleared at the end. -/
def handlePlayerDisconnect (sid : Nat) (sockRoom : Option String)
    (rooms : RoomsMap) : Out Unit :=
  match sockRoom with
  | none => { rooms := rooms, sockRoom := sockRoom, events := [], result := () }
  | some roomCode =>
    match lookupRoom rooms roomCode with
    | none => { rooms := rooms, sockRoom := sockRoom, events := [], result := () }
    | some room =>
      match extractFirst room.players sid with
      | none =>
        -- player not found: the `if` block is skipped, but the socket still
        -- leaves the room and `socket.roomCode` is cleared
        { rooms := rooms, sockRoom := none, events := [], result := () }
      | some (leaving, remaining) =>
        if remaining.isEmpty then
          { rooms := removeRoom rooms roomCode, sockRoom := none,
            events := [], result := () }
        else
          let remaining' := if leaving.isHost then setHostFirst remaining else remaining
          if room.gameState = .playing then
            let room' : Room := { room with players := remaining', gameState := .waiting }
            let rooms' := storeRoom rooms roomCode room'
            { rooms := rooms', sockRoom := none,
              events := [.gameAborted roomCode (leaving.username ++ " disconnected"),
                         .playerLeft roomCode sid (getRoomInfo rooms' roomCode)],
              result := () }
          else
            let room' : Room := { room with players := remaining' }
            let rooms' := storeRoom rooms roomCode room'
            { rooms := rooms', sockRoom := none,
              events := [.playerLeft roomCode sid (getRoomInfo rooms' roomCode)],
              result := () }

/-- Models the `getRoomInfo` handler of the custom server: succeeds only when
the (normalized) room exists AND the caller is one of its players; on success
the socket is (re)attached to the room. -/
def getRoomInfoHandler (sid : Nat) (roomCode : String)
    (sockRoom : Option String) (rooms : RoomsMap) : Out InfoResult :=
  let norm := roomCode.toUpper
  match getRoomInfo rooms norm with
  | none =>
    { rooms := rooms, sockRoom := sockRoom, events := [], result := .fail }
  | some info =>
    if info.players.any (fun p => p.id == sid) then
      { rooms := rooms, sockRoom := some norm, events := [], result := .ok info }
    else
      { rooms := rooms, sockRoom := sockRoom, events := [], result := .fail }

end Srv

/-! ## Concrete fixtures used by counterexamples and witnesses -/

namespace Fix

/-- Ready host "Alice" (pages-API player shape). -/
def aliceReadyHost : PagesApi.Player :=
  { id := 1, username := "Alice", isReady := true, isHost := true }

/-- Ready guest "Bob" (pages-API player shape). -/
def bobReady : PagesApi.Player :=
  { id := 2, username := "Bob", isReady := true, isHost := false }

/-- A waiting pages-API room holding only the ready host. -/
def soloRoom : PagesApi.Room :=
  { roomCode := "AAAA", players := [aliceReadyHost], gameState := .waiting }

/-- A playing pages-API room with both players. -/
def playingRoom : PagesApi.Room :=
  { roomCode := "AAAA", players := [aliceReadyHost, bobReady], gameState := .playing }

/-- A finished pages-API room from which one player already left. -/
def finishedSoloRoom : PagesApi.Room :=
  { roomCode := "AAAA", players := [aliceReadyHost], gameState := .finished }

/-- Ready host "Alice" (custom-server player shape). -/
def sAlice : Srv.Player :=
  { id := 1, username := "Alice", isReady := true, isHost := true,
    board := none, score := 0, pieces := [], gameOver := false }

/-- Ready guest "Bob" (custom-server player shape). -/
def sBob : Srv.Player :=
  { id := 2, username := "Bob", isReady := true, isHost := false,
    board := none, score := 0, pieces := [], gameOver := false }

/-- A waiting custom-server room with both players ready. -/
def sWaitingRoom : Srv.Room :=
  { players := [sAlice, sBob], gameState := .waiting, currentPieces := none }

/-- A playing custom-server room with both players. -/
def sPlayingRoom : Srv.Room :=
  { players := [sAlice, sBob], gameState := .playing, currentPieces := none }

/-- A waiting custom-server room holding only Alice. -/
def sSoloRoom : Srv.Room :=
  { players := [sAlice], gameState := .waiting, currentPieces := none }

/-- Alice with a stored score of 10. -/
def sAlice10 : Srv.Player := { sAlice with score := 10 }

/-- A playing custom-server room where Alice has already stored score 10. -/
def sScoreRoom : Srv.Room :=
  { players := [sAlice10, sBob], gameState := .playing, currentPieces := none }

/-- A playing custom-server room where Bob has the strictly higher score. -/
def sBob7Room : Srv.Room :=
  { players := [sAlice, { sBob with score := 7 }], gameState := .playing,
    currentPieces := none }

end Fix

/-! ## Specification predicates (conclusions of the per-claim theorems) -/

/-- Conclusion of the amended C1: on the custom server, a startGame request
succeeds (a `gameStarted` broadcast with a 3-piece batch is emitted and the
room becomes playing) exactly when the room has 2 players, all ready, and
the requester is the host player; otherwise nothing changes. -/
def startGameGuardSpec (sid : Nat) (code : String) (rooms : Srv.RoomsMap)
    (dateNow : Nat) (sd cd : Nat → Fin 7) (room : Srv.Room) : Prop :=
  let out := Srv.startGameHandler sid (some code) rooms dateNow sd cd
  let started : Prop :=
    (∃ info ps, Srv.Event.gameStarted code info ps ∈ out.events ∧ ps.length = 3) ∧
      (lookupRoom out.rooms code).map Srv.Room.gameState = some .playing
  let guard : Prop :=
    room.players.length = 2 ∧ room.players.all (fun p => p.isReady) = true ∧
      ∃ p, room.players.find? (fun q => q.id == sid) = some p ∧ p.isHost = true
  (started ↔ guard) ∧ (¬ guard → out.rooms = rooms ∧ out.events = [])

/-- Conclusion of the amended C2: on the custom server, with both players of
the room-ordered pair (p1, p2) still unfinished, and in EITHER signal order
(p1 before p2, or p2 before p1), the first gameOver signal emits nothing and
keeps the room playing, and the second finishes the room and emits exactly
one `gameFinished` with the same winner either way: the player with the
strictly greater score, ties resolved to p1, the first player in room order
— so in the tied case where p2 signalled first, the winner is still p1,
never merely whoever signalled first. -/
def gameOverTwoPhaseSpec (code : String) (rooms : Srv.RoomsMap)
    (p1 p2 : Srv.Player) : Prop :=
  let winId := if p2.score ≤ p1.score then p1.id else p2.id
  let winName := if p2.score ≤ p1.score then p1.username else p2.username
  let scores := [(p1.id, p1.username, p1.score), (p2.id, p2.username, p2.score)]
  (let out1 := Srv.gameOver p1.id (some code) rooms
   let out2 := Srv.gameOver p2.id (some code) out1.rooms
   out1.events = [] ∧
   (lookupRoom out1.rooms code).map Srv.Room.gameState = some .playing ∧
   (lookupRoom out2.rooms code).map Srv.Room.gameState = some .finished ∧
   out2.events = [Srv.Event.gameFinished code winId winName scores]) ∧
  (let out1 := Srv.gameOver p2.id (some code) rooms
   let out2 := Srv.gameOver p1.id (some code) out1.rooms
   out1.events = [] ∧
   (lookupRoom out1.rooms code).map Srv.Room.gameState = some .playing ∧
   (lookupRoom out2.rooms code).map Srv.Room.gameState = some .finished ∧
   out2.events = [Srv.Event.gameFinished code winId winName scores])

/-- Conclusion of the amended C4: on the custom server, a disconnect from a
playing room with players remaining reverts the room to waiting (never
finished), leaves the remaining `isReady` flags untouched, and emits exactly
one `gameAborted` whose reason names the departing player, followed by one
`playerLeft`. -/
def abortOnDisconnectSpec (sid : Nat) (code : String) (rooms : Srv.RoomsMap)
    (leaving : Srv.Player) (remaining : List Srv.Player) : Prop :=
  let out := Srv.handlePlayerDisconnect sid (some code) rooms
  (lookupRoom out.rooms code).map Srv.Room.gameState = some .waiting ∧
  (lookupRoom out.rooms code).map (fun r => r.players.map (fun p => p.isReady)) =
    some (remaining.map (fun p => p.isReady)) ∧
  out.events = [Srv.Event.gameAborted code (leaving.username ++ " disconnected"),
                Srv.Event.playerLeft code sid (Srv.getRoomInfo out.rooms code)]

/-- Conclusion of C5, first half: after the host's departure the room's
player list is the remaining players in order, with the first one promoted
to host and the rest untouched. -/
def hostReassignSpec (sid : Nat) (code : String) (rooms : PagesApi.RoomsMap)
    (q0 : PagesApi.Player) (rest0 : List PagesApi.Player) : Prop :=
  (lookupRoom (PagesApi.handlePlayerDisconnect sid (some code) rooms).rooms code).map
      PagesApi.Room.players =
    some ({ q0 with isHost := true } :: rest0)

/-- Conclusion of C5, second half: after the last player's departure the room
is gone, and both getRoomInfo and joinRoom for that code fail with
"Room not found". -/
def roomDeleteSpec (sid : Nat) (code : String) (rooms : PagesApi.RoomsMap) : Prop :=
  let out := PagesApi.handlePlayerDisconnect sid (some code) rooms
  lookupRoom out.rooms code = none ∧
  (PagesApi.getRoomInfoHandler 99 code none out.rooms).result = .fail "Room not found" ∧
  (PagesApi.joinRoom 99 "Carol" code none out.rooms).result = .fail "Room not found"

/-- Conclusion of the amended C9: an accepted updateGameState submission
stores exactly the submitted board and score on the sender's player record
(no monotonicity or sign check). -/
def scoreStoreSpec (sid : Nat) (code : String) (rooms : Srv.RoomsMap)
    (board : Board) (score : Int) (p : Srv.Player) : Prop :=
  ((lookupRoom (Srv.updateGameState sid (some code) rooms board score).rooms code).bind
      (fun r => r.players.find? (fun q => q.id == sid))) =
    some { p with board := some board, score := score }

/-- Conclusion of C5 on the custom server, first half: mirror of
`hostReassignSpec`. -/
def hostReassignSpecSrv (sid : Nat) (code : String) (rooms : Srv.RoomsMap)
    (q0 : Srv.Player) (rest0 : List Srv.Player) : Prop :=
  (lookupRoom (Srv.handlePlayerDisconnect sid (some code) rooms).rooms code).map
      Srv.Room.players =
    some ({ q0 with isHost := true } :: rest0)

/-- Conclusion of C5 on the custom server, second half: mirror of
`roomDeleteSpec` (the caller-facing failures need the code to be in its
normalized, upper-case form, which every stored key is). -/
def roomDeleteSpecSrv (sid : Nat) (code : String) (rooms : Srv.RoomsMap) : Prop :=
  let out := Srv.handlePlayerDisconnect sid (some code) rooms
  lookupRoom out.rooms code = none ∧
  (code.toUpper = code →
    (Srv.getRoomInfoHandler 99 code none out.rooms).result = .fail ∧
    (Srv.joinRoom 99 "Carol" code none out.rooms).result = .fail "Room not found")

/-- Conclusion of C10: toggling ready twice restores the whole rooms map, and
the two callbacks return the flipped and the original value respectively. -/
def toggleTwiceSpec (sid : Nat) (code : String) (rooms : PagesApi.RoomsMap)
    (p : PagesApi.Player) : Prop :=
  let out1 := PagesApi.toggleReady sid (some code) rooms
  let out2 := PagesApi.toggleReady sid out1.sockRoom out1.rooms
  out1.sockRoom = some code ∧
  out1.result = .ok (!p.isReady) ∧
  out2.result = .ok p.isReady ∧
  out2.rooms = rooms

/-- Conclusion of C10 on the custom server: mirror of `toggleTwiceSpec`. -/
def toggleTwiceSpecSrv (sid : Nat) (code : String) (rooms : Srv.RoomsMap)
    (p : Srv.Player) : Prop :=
  let out1 := Srv.toggleReady sid (some code) rooms
  let out2 := Srv.toggleReady sid out1.sockRoom out1.rooms
  out1.sockRoom = some code ∧
  out1.result = some (.ok (!p.isReady)) ∧
  out2.result = some (.ok p.isReady) ∧
  out2.rooms = rooms

/-! ## Store lemmas -/

/-- Reading back the key just written returns the written room. -/
theorem lookupRoom_storeRoom_self {ρ : Type} (rs : List (String × ρ)) (c : String) (r : ρ) :
    lookupRoom (storeRoom rs c r) c = some r := by
  induction rs with
  | nil => simp [storeRoom, lookupRoom]
  | cons e rest ih =>
    simp only [storeRoom]
    split
    · simp [lookupRoom]
    · rename_i h
      simpa [lookupRoom, List.find?_cons, h] using ih

/-- Writing back the room already stored at a key is a no-op. -/
theorem storeRoom_eq_self {ρ : Type} {rs : List (String × ρ)} {c : String} {r : ρ}
    (h : lookupRoom rs c = some r) : storeRoom rs c r = rs := by
  induction rs with
  | nil => simp [lookupRoom] at h
  | cons e rest ih =>
    obtain ⟨k, v⟩ := e
    by_cases hk : k == c
    · have hc : k = c := by simpa using hk
      have hv : v = r := by simpa [lookupRoom, List.find?_cons, hk] using h
      simp [storeRoom, hk, hc, hv]
    · have h' : lookupRoom rest c = some r := by
        simpa [lookupRoom, List.find?_cons, hk] using h
      simp [storeRoom, hk, ih h']

/-- Two successive writes to the same key collapse to the second. -/
theorem storeRoom_storeRoom {ρ : Type} (rs : List (String × ρ)) (c : String) (r1 r2 : ρ) :
    storeRoom (storeRoom rs c r1) c r2 = storeRoom rs c r2 := by
  induction rs with
  | nil => simp [storeRoom]
  | cons e rest ih =>
    by_cases he : e.1 == c
    · simp [storeRoom, he]
    · simp [storeRoom, he, ih]

/-- A deleted key is gone. -/
theorem lookupRoom_removeRoom_self {ρ : Type} (rs : List (String × ρ)) (c : String) :
    lookupRoom (removeRoom rs c) c = none := by
  induction rs with
  | nil => simp [removeRoom, lookupRoom]
  | cons e rest ih =>
    by_cases he : e.1 == c
    · simpa [removeRoom, List.filter_cons, he] using ih
    · simp only [removeRoom, List.filter_cons, he] at ih ⊢
      simp [lookupRoom, List.find?_cons, he]

/-! ## Player-list lemmas -/

/-- Toggling the same player's ready flag twice restores the list. -/
theorem PagesApi.toggleFirst_toggleFirst (ps : List PagesApi.Player) (sid : Nat) :
    PagesApi.toggleFirst (PagesApi.toggleFirst ps sid) sid = ps := by
  induction ps with
  | nil => rfl
  | cons p rest ih =>
    by_cases h : p.id == sid
    · simp [PagesApi.toggleFirst, h]
    · simp [PagesApi.toggleFirst, h, ih]

/-- After a toggle, the same player is found with the flipped flag. -/
theorem PagesApi.find?_toggleFirst {ps : List PagesApi.Player} {sid : Nat}
    {p : PagesApi.Player} (h : ps.find? (fun q => q.id == sid) = some p) :
    (PagesApi.toggleFirst ps sid).find? (fun q => q.id == sid) =
      some { p with isReady := !p.isReady } := by
  induction ps with
  | nil => simp at h
  | cons q rest ih =>
    by_cases hq : q.id == sid
    · have : q = p := by simpa [List.find?_cons, hq] using h
      subst this
      simp [PagesApi.toggleFirst, hq, List.find?_cons]
    · have h' : rest.find? (fun q => q.id == sid) = some p := by
        simpa [List.find?_cons, hq] using h
      simp [PagesApi.toggleFirst, hq, List.find?_cons, ih h']

/-- Toggling the same player's ready flag twice restores the list (custom
server player shape). -/
theorem Srv.toggleFirst_twice_eq (ps : List Srv.Player) (sid : Nat) :
    Srv.toggleFirst (Srv.toggleFirst ps sid) sid = ps := by
  induction ps with
  | nil => rfl
  | cons p rest ih =>
    by_cases h : p.id == sid
    · simp [Srv.toggleFirst, h]
    · simp [Srv.toggleFirst, h, ih]

/-- After a toggle, the same player is found with the flipped flag (custom
server player shape). -/
theorem Srv.find?_after_toggleFirst {ps : List Srv.Player} {sid : Nat}
    {p : Srv.Player} (h : ps.find? (fun q => q.id == sid) = some p) :
    (Srv.toggleFirst ps sid).find? (fun q => q.id == sid) =
      some { p with isReady := !p.isReady } := by
  induction ps with
  | nil => simp at h
  | cons q rest ih =>
    by_cases hq : q.id == sid
    · have : q = p := by simpa [List.find?_cons, hq] using h
      subst this
      simp [Srv.toggleFirst, hq, List.find?_cons]
    · have h' : rest.find? (fun q => q.id == sid) = some p := by
        simpa [List.find?_cons, hq] using h
      simp [Srv.toggleFirst, hq, List.find?_cons, ih h']

/-- After a snapshot update, the same player is found with the new board and
score. -/
theorem Srv.find?_updateFirst {ps : List Srv.Player} {sid : Nat} {p : Srv.Player}
    (board : Board) (score : Int)
    (h : ps.find? (fun q => q.id == sid) = some p) :
    (Srv.updateFirst ps sid board score).find? (fun q => q.id == sid) =
      some { p with board := some board, score := score } := by
  induction ps with
  | nil => simp at h
  | cons q rest ih =>
    by_cases hq : q.id == sid
    · have : q = p := by simpa [List.find?_cons, hq] using h
      subst this
      simp [Srv.updateFirst, hq, List.find?_cons]
    · have h' : rest.find? (fun q => q.id == sid) = some p := by
        simpa [List.find?_cons, hq] using h
      simp [Srv.updateFirst, hq, List.find?_cons, ih h']

/-- Promoting the first remaining player to host does not touch any ready
flag. -/
theorem Srv.setHostFirst_map_isReady (l : List Srv.Player) :
    (Srv.setHostFirst l).map (fun p => p.isReady) = l.map (fun p => p.isReady) := by
  cases l <;> rfl

/-! ## C6: room-code generation -/

/-- C6 (amended): every code produced by the pages-API `generateRoomCode` has
length exactly 4 and draws all its characters from the uppercase alphabet
A-Z.  (The collision-check half of the original claim is refuted by
`claim_C6_counterexample`: the generator never consults the active key set.) -/
theorem claim_C6 (draws : Nat → Fin 26) :
    (PagesApi.generateRoomCode draws).length = 4 ∧
    ((PagesApi.generateRoomCode draws).toList.all
      (fun c => PagesApi.chars.contains c)) = true := by
  constructor
  · simp [PagesApi.generateRoomCode, String.length]
  · simp only [PagesApi.generateRoomCode, String.toList, List.all_eq_true]
    intro c hc
    obtain ⟨i, _, rfl⟩ := List.mem_map.mp hc
    exact List.elem_eq_true_of_mem (List.get_mem PagesApi.chars (draws i).1 (draws i).2)

/-- C6, counterexample to the original claim: the custom server's base-36
generator returns a 6-character code containing the digit '0' (neither
length 4 nor drawn from A-Z); and the pages-API `createRoom` does not check
the generated code against the active key set — with a draw that collides
with the already-active code "AAAA" it happily returns "AAAA" again and
overwrites the existing room. -/
theorem claim_C6_counterexample :
    (Srv.generateRoomCode [0, 10, 35, 1, 2, 3, 4]).length = 6 ∧
    ((Srv.generateRoomCode [0, 10, 35, 1, 2, 3, 4]).toList.all
      (fun c => PagesApi.chars.contains c)) = false ∧
    (PagesApi.createRoom 2 "Bob" (fun _ => 0) none [("AAAA", Fix.soloRoom)]).result =
      .ok "AAAA" ∧
    lookupRoom (PagesApi.createRoom 2 "Bob" (fun _ => 0) none
        [("AAAA", Fix.soloRoom)]).rooms "AAAA" ≠ some Fix.soloRoom := by
  refine ⟨rfl, rfl, rfl, ?_⟩
  decide

/-! ## Counterexamples on the pages-API / custom-server divergences -/

/-- C1, counterexample to the original claim: the pages-API `startGame` never
checks the number of players.  In a waiting room holding ONLY the ready host
(1 player, not 2), the host's start request succeeds: the room turns to
playing and a `gameStarted` broadcast is emitted. -/
theorem claim_C1_counterexample :
    (Fix.soloRoom.players.length = 2) = False ∧
    (lookupRoom (PagesApi.startGame 1 (some "AAAA") [("AAAA", Fix.soloRoom)]
        0 (fun _ => 0) (fun _ => 0)).rooms "AAAA").map PagesApi.Room.gameState =
      some GameState.playing ∧
    (PagesApi.startGame 1 (some "AAAA") [("AAAA", Fix.soloRoom)]
        0 (fun _ => 0) (fun _ => 0)).events.length = 1 := by
  refine ⟨by simp [Fix.soloRoom], rfl, rfl⟩

/-- C2, counterexample to the original claim: in the pages-API server a
SINGLE `gameOver` signal from Alice immediately finishes a playing 2-player
room — Bob has signalled nothing — and the broadcast winner is Alice, the
player who merely signalled first (pages-API players do not even carry a
score). -/
theorem claim_C2_counterexample :
    (lookupRoom (PagesApi.gameOver 1 (some "AAAA")
        [("AAAA", Fix.playingRoom)]).rooms "AAAA").map PagesApi.Room.gameState =
      some GameState.finished ∧
    (PagesApi.gameOver 1 (some "AAAA") [("AAAA", Fix.playingRoom)]).events =
      [PagesApi.Event.gameFinished "AAAA" 1 "Alice"] := by
  exact ⟨rfl, rfl⟩

/-- C3, counterexample to the original claim: the pages-API `joinRoom` only
rejects `gameState === 'playing'`.  Joining a FINISHED room (reachable: a
room finishes with 2 players and one of them leaves) succeeds and appends
the new player instead of failing with GameInProgress. -/
theorem claim_C3_counterexample :
    (PagesApi.joinRoom 2 "Bob" "AAAA" none [("AAAA", Fix.finishedSoloRoom)]).result =
      .ok "AAAA" ∧
    (lookupRoom (PagesApi.joinRoom 2 "Bob" "AAAA" none
        [("AAAA", Fix.finishedSoloRoom)]).rooms "AAAA").map
      (fun r => (r.gameState, r.players.length)) = some (GameState.finished, 2) := by
  exact ⟨rfl, rfl⟩

/-- C4, counterexample to the original claim: when Bob disconnects from a
playing pages-API room the single `gameAborted` reason is the fixed string
"A player disconnected" — it does not name the departing player. -/
theorem claim_C4_counterexample :
    (PagesApi.handlePlayerDisconnect 2 (some "AAAA")
        [("AAAA", Fix.playingRoom)]).events =
      [PagesApi.Event.playerLeft "AAAA" 2
        { roomCode := "AAAA", players := [Fix.aliceReadyHost], gameState := .playing },
       PagesApi.Event.gameAborted "AAAA" "A player disconnected"] ∧
    Fix.bobReady.username ++ " disconnected" ≠ "A player disconnected" := by
  refine ⟨rfl, by decide⟩

/-- C7, counterexample to the original claim: the custom server relays
`opponentUpdated` via `io.to`, i.e. to every member of the room INCLUDING
the sender (`excludeSender = false`) — the snapshot IS echoed back; and the
pages-API variant, which does exclude the sender (`socket.to`,
`excludeSender = true`), relays even when the room is still waiting instead
of silently no-opping when the game is not playing. -/
theorem claim_C7_counterexample :
    (Srv.updateGameState 1 (some "AAAA") [("AAAA", Fix.sPlayingRoom)] [] 3).events =
      [Srv.Event.opponentUpdated "AAAA" false 1 [] 3] ∧
    Fix.soloRoom.gameState = GameState.waiting ∧
    (PagesApi.updateGameState 1 (some "AAAA") [("AAAA", Fix.soloRoom)] [] 3).events =
      [PagesApi.Event.opponentUpdated "AAAA" true 1 [] 3] := by
  exact ⟨rfl, rfl, rfl⟩

/-- C9, counterexample to the original claim: the custom server stores
whatever score the client submits while the room is playing.  Starting from
a stored score of 10, an accepted submission of 5 lowers the stored score,
and a submission of -3 stores a negative score. -/
theorem claim_C9_counterexample :
    (lookupRoom (Srv.updateGameState 1 (some "AAAA") [("AAAA", Fix.sScoreRoom)]
        [] 5).rooms "AAAA").map (fun r => r.players.map (fun p => p.score)) =
      some [5, 0] ∧
    (5 : Int) < 10 ∧
    (lookupRoom (Srv.updateGameState 1 (some "AAAA") [("AAAA", Fix.sScoreRoom)]
        [] (-3)).rooms "AAAA").map (fun r => r.players.map (fun p => p.score)) =
      some [-3, 0] := by
  refine ⟨rfl, by decide, rfl⟩

/-! ## C10: toggleReady is an involution -/

/-- C10: in both server implementations, for a room containing the caller's
player, toggling ready twice in succession restores the entire rooms map
(player list and order, host flags, other ready flags, gameState all
unchanged), and the two callbacks return the flipped and then the original
ready value. -/
theorem claim_C10 (sid : Nat) (code : String) :
    (∀ (rooms : PagesApi.RoomsMap) (room : PagesApi.Room) (p : PagesApi.Player),
        lookupRoom rooms code = some room →
        room.players.find? (fun q => q.id == sid) = some p →
        toggleTwiceSpec sid code rooms p) ∧
    (∀ (rooms : Srv.RoomsMap) (room : Srv.Room) (p : Srv.Player),
        lookupRoom rooms code = some room →
        room.players.find? (fun q => q.id == sid) = some p →
        toggleTwiceSpecSrv sid code rooms p) := by
  constructor
  · intro rooms room p hroom hfind
    unfold toggleTwiceSpec
    have h1 := lookupRoom_storeRoom_self rooms code
      { room with players := PagesApi.toggleFirst room.players sid }
    simp only [PagesApi.toggleReady, hroom, hfind, h1,
      PagesApi.find?_toggleFirst hfind, PagesApi.toggleFirst_toggleFirst,
      storeRoom_storeRoom, Bool.not_not]
    refine ⟨trivial, trivial, trivial, ?_⟩
    exact storeRoom_eq_self hroom
  · intro rooms room p hroom hfind
    unfold toggleTwiceSpecSrv
    have h1 := lookupRoom_storeRoom_self rooms code
      { room with players := Srv.toggleFirst room.players sid }
    simp only [Srv.toggleReady, hroom, hfind, h1,
      Srv.find?_after_toggleFirst hfind, Srv.toggleFirst_twice_eq,
      storeRoom_storeRoom, Bool.not_not]
    refine ⟨trivial, trivial, trivial, ?_⟩
    exact storeRoom_eq_self hroom

/-- C10 witness: concrete instances for both implementations. -/
theorem claim_C10_witness :
    toggleTwiceSpec 1 "AAAA" [("AAAA", Fix.soloRoom)] Fix.aliceReadyHost ∧
    toggleTwiceSpecSrv 1 "AAAA" [("AAAA", Fix.sWaitingRoom)] Fix.sAlice :=
  ⟨(claim_C10 1 "AAAA").1 [("AAAA", Fix.soloRoom)] Fix.soloRoom
      Fix.aliceReadyHost rfl rfl,
   (claim_C10 1 "AAAA").2 [("AAAA", Fix.sWaitingRoom)] Fix.sWaitingRoom
      Fix.sAlice rfl rfl⟩

/-! ## C9: score storage -/

/-- C9 (amended): while the room is playing, an accepted updateGameState
submission stores exactly the submitted board and score on the sender's
player record — the server performs no monotonicity or non-negativity
check (the original claim's monotone/non-negative invariant is refuted by
`claim_C9_counterexample`). -/
theorem claim_C9 (sid : Nat) (code : String) (rooms : Srv.RoomsMap)
    (board : Board) (score : Int) (room : Srv.Room) (p : Srv.Player)
    (hroom : lookupRoom rooms code = some room)
    (hplay : room.gameState = .playing)
    (hfind : room.players.find? (fun q => q.id == sid) = some p) :
    scoreStoreSpec sid code rooms board score p := by
  unfold scoreStoreSpec
  simp only [Srv.updateGameState, hroom, hfind, hplay, if_true]
  simp [lookupRoom_storeRoom_self, Srv.find?_updateFirst board score hfind]

/-- C9 witness: a concrete instance discharging the hypotheses. -/
theorem claim_C9_witness :
    scoreStoreSpec 1 "AAAA" [("AAAA", Fix.sPlayingRoom)] [] 4 Fix.sAlice :=
  claim_C9 1 "AAAA" [("AAAA", Fix.sPlayingRoom)] [] 4 Fix.sPlayingRoom Fix.sAlice
    rfl rfl rfl

/-! ## C5: host reassignment and room deletion -/

/-- C5: when a player leaves, (a) if players remain, the first remaining
player in room order is promoted to host and the rest of the list is
untouched; (b) if the room becomes empty it is deleted, and a subsequent
getRoomInfo or joinRoom for that code fails with "Room not found".  (Both
server implementations share this logic; the pages-API one is embedded
here.) -/
theorem claim_C5 (sid : Nat) (code : String) :
    (∀ (rooms : PagesApi.RoomsMap) (room : PagesApi.Room)
        (leaving : PagesApi.Player) (remaining : List PagesApi.Player),
        lookupRoom rooms code = some room →
        PagesApi.extractFirst room.players sid = some (leaving, remaining) →
        (∀ q0 rest0, remaining = q0 :: rest0 → leaving.isHost = true →
            hostReassignSpec sid code rooms q0 rest0) ∧
        (remaining = [] → roomDeleteSpec sid code rooms)) ∧
    (∀ (rooms : Srv.RoomsMap) (room : Srv.Room)
        (leaving : Srv.Player) (remaining : List Srv.Player),
        lookupRoom rooms code = some room →
        Srv.extractFirst room.players sid = some (leaving, remaining) →
        (∀ q0 rest0, remaining = q0 :: rest0 → leaving.isHost = true →
            hostReassignSpecSrv sid code rooms q0 rest0) ∧
        (remaining = [] → roomDeleteSpecSrv sid code rooms)) := by
  constructor
  · intro rooms room leaving remaining hroom hext
    constructor
    · rintro q0 rest0 rfl hhost
      unfold hostReassignSpec
      simp only [PagesApi.handlePlayerDisconnect, hroom, hext, hhost,
        List.isEmpty_cons, PagesApi.setHostFirst, if_true]
      by_cases hgs : room.gameState = GameState.playing
      · simp [hgs, lookupRoom_storeRoom_self, storeRoom_storeRoom]
      · simp [hgs, lookupRoom_storeRoom_self]
    · rintro rfl
      unfold roomDeleteSpec
      simp only [PagesApi.handlePlayerDisconnect, hroom, hext, List.isEmpty_nil]
      simp [lookupRoom_removeRoom_self, PagesApi.getRoomInfoHandler,
        PagesApi.joinRoom]
  · intro rooms room leaving remaining hroom hext
    constructor
    · rintro q0 rest0 rfl hhost
      unfold hostReassignSpecSrv
      simp only [Srv.handlePlayerDisconnect, hroom, hext, hhost,
        List.isEmpty_cons, Srv.setHostFirst, if_true]
      by_cases hgs : room.gameState = GameState.playing
      · simp [hgs, lookupRoom_storeRoom_self]
      · simp [hgs, lookupRoom_storeRoom_self]
    · rintro rfl
      unfold roomDeleteSpecSrv
      simp only [Srv.handlePlayerDisconnect, hroom, hext, List.isEmpty_nil]
      refine ⟨lookupRoom_removeRoom_self _ _, ?_⟩
      intro hupper
      constructor
      · simp [Srv.getRoomInfoHandler, hupper, Srv.getRoomInfo,
          lookupRoom_removeRoom_self]
      · simp [Srv.joinRoom, hupper, lookupRoom_removeRoom_self]

/-- C5 witness: for each implementation, the host leaves a two-player room
(Bob is promoted), and the last player leaves a solo room (the room
disappears, and getRoomInfo / joinRoom for its code fail). -/
theorem claim_C5_witness :
    (hostReassignSpec 1 "AAAA" [("AAAA", Fix.playingRoom)] Fix.bobReady [] ∧
     roomDeleteSpec 1 "AAAA" [("AAAA", Fix.soloRoom)]) ∧
    (hostReassignSpecSrv 1 "AAAA" [("AAAA", Fix.sPlayingRoom)] Fix.sBob [] ∧
     roomDeleteSpecSrv 1 "AAAA" [("AAAA", Fix.sSoloRoom)]) := by
  refine ⟨⟨?_, ?_⟩, ?_, ?_⟩
  · exact ((claim_C5 1 "AAAA").1 [("AAAA", Fix.playingRoom)] Fix.playingRoom
      Fix.aliceReadyHost [Fix.bobReady] rfl rfl).1 Fix.bobReady [] rfl rfl
  · exact ((claim_C5 1 "AAAA").1 [("AAAA", Fix.soloRoom)] Fix.soloRoom
      Fix.aliceReadyHost [] rfl rfl).2 rfl
  · exact ((claim_C5 1 "AAAA").2 [("AAAA", Fix.sPlayingRoom)] Fix.sPlayingRoom
      Fix.sAlice [Fix.sBob] rfl rfl).1 Fix.sBob [] rfl rfl
  · exact ((claim_C5 1 "AAAA").2 [("AAAA", Fix.sSoloRoom)] Fix.sSoloRoom
      Fix.sAlice [] rfl rfl).2 rfl

/-! ## C4 (amended): disconnect-abort on the custom server -/

/-- C4 (amended, scoped to the custom server where the original claim's
"reason names the departing player" holds): a disconnect from a playing room
with players remaining reverts the room to waiting, leaves every remaining
`isReady` flag unchanged, and emits exactly one `gameAborted` broadcast whose
reason is the departing player's display name followed by " disconnected"
(and then one `playerLeft`).  The pages-API variant uses a fixed reason
string instead, see `claim_C4_counterexample`. -/
theorem claim_C4 (sid : Nat) (code : String) (rooms : Srv.RoomsMap)
    (room : Srv.Room) (leaving : Srv.Player) (remaining : List Srv.Player)
    (hroom : lookupRoom rooms code = some room)
    (hplay : room.gameState = .playing)
    (hext : Srv.extractFirst room.players sid = some (leaving, remaining))
    (hne : remaining.isEmpty = false) :
    abortOnDisconnectSpec sid code rooms leaving remaining := by
  unfold abortOnDisconnectSpec
  simp only [Srv.handlePlayerDisconnect, hroom, hext, hne, hplay, if_true,
    Bool.false_eq_true, if_false]
  by_cases hhost : leaving.isHost
  · simp [hhost, lookupRoom_storeRoom_self, Srv.setHostFirst_map_isReady]
  · simp [hhost, lookupRoom_storeRoom_self]

/-- C4 witness: Bob disconnects from a playing custom-server room. -/
theorem claim_C4_witness :
    abortOnDisconnectSpec 2 "AAAA" [("AAAA", Fix.sPlayingRoom)] Fix.sBob
      [Fix.sAlice] :=
  claim_C4 2 "AAAA" [("AAAA", Fix.sPlayingRoom)] Fix.sPlayingRoom Fix.sBob
    [Fix.sAlice] rfl rfl rfl rfl

/-! ## C8: the disconnect path is idempotent -/

/-- C8: in both server implementations, running the disconnect/leave path a
second time right after a first run is a safe no-op: the second run leaves
the rooms map exactly as the first run left it (no mutation, no deletion)
and emits no broadcast. -/
theorem claim_C8 :
    (∀ (sid : Nat) (sockRoom : Option String) (rooms : PagesApi.RoomsMap),
      let o1 := PagesApi.handlePlayerDisconnect sid sockRoom rooms
      let o2 := PagesApi.handlePlayerDisconnect sid o1.sockRoom o1.rooms
      o2.rooms = o1.rooms ∧ o2.events = []) ∧
    (∀ (sid : Nat) (sockRoom : Option String) (rooms : Srv.RoomsMap),
      let o1 := Srv.handlePlayerDisconnect sid sockRoom rooms
      let o2 := Srv.handlePlayerDisconnect sid o1.sockRoom o1.rooms
      o2.rooms = o1.rooms ∧ o2.events = []) := by
  constructor
  · intro sid sockRoom rooms
    cases sockRoom with
    | none => exact ⟨rfl, rfl⟩
    | some code =>
      cases hroom : lookupRoom rooms code with
      | none => simp [PagesApi.handlePlayerDisconnect, hroom]
      | some room =>
        cases hext : PagesApi.extractFirst room.players sid with
        | none => simp [PagesApi.handlePlayerDisconnect, hroom, hext]
        | some pr =>
          obtain ⟨leaving, remaining⟩ := pr
          cases hemp : remaining.isEmpty with
          | true => simp [PagesApi.handlePlayerDisconnect, hroom, hext, hemp]
          | false =>
            by_cases hgs : room.gameState = GameState.playing
            · simp [PagesApi.handlePlayerDisconnect, hroom, hext, hemp, hgs]
            · simp [PagesApi.handlePlayerDisconnect, hroom, hext, hemp, hgs]
  · intro sid sockRoom rooms
    cases sockRoom with
    | none => exact ⟨rfl, rfl⟩
    | some code =>
      cases hroom : lookupRoom rooms code with
      | none => simp [Srv.handlePlayerDisconnect, hroom]
      | some room =>
        cases hext : Srv.extractFirst room.players sid with
        | none => simp [Srv.handlePlayerDisconnect, hroom, hext]
        | some pr =>
          obtain ⟨leaving, remaining⟩ := pr
          cases hemp : remaining.isEmpty with
          | true => simp [Srv.handlePlayerDisconnect, hroom, hext, hemp]
          | false =>
            by_cases hgs : room.gameState = GameState.playing
            · simp [Srv.handlePlayerDisconnect, hroom, hext, hemp, hgs]
            · simp [Srv.handlePlayerDisconnect, hroom, hext, hemp, hgs]

/-! ## C3 (amended): joinRoom on the custom server -/

/-- C3 (amended, scoped to the custom server, which implements the full
check; the pages-API variant lets players join a finished room, see
`claim_C3_counterexample`): joinRoom fails with "Room not found" when the
(normalized) code is absent, else with "Game already in progress" whenever
the state is not waiting (so also when finished), else with "Room is full"
when 2 players are present; otherwise it appends a non-host, not-ready
player.  On every failure the rooms map is untouched and nothing is
broadcast. -/
theorem claim_C3 (sid : Nat) (username roomCode : String)
    (sockRoom : Option String) (rooms : Srv.RoomsMap) :
    match lookupRoom rooms roomCode.toUpper with
    | none =>
        Srv.joinRoom sid username roomCode sockRoom rooms =
          { rooms := rooms, sockRoom := sockRoom, events := [],
            result := .fail "Room not found" }
    | some room =>
        if room.gameState ≠ GameState.waiting then
          Srv.joinRoom sid username roomCode sockRoom rooms =
            { rooms := rooms, sockRoom := sockRoom, events := [],
              result := .fail "Game already in progress" }
        else if 2 ≤ room.players.length then
          Srv.joinRoom sid username roomCode sockRoom rooms =
            { rooms := rooms, sockRoom := sockRoom, events := [],
              result := .fail "Room is full" }
        else
          (Srv.joinRoom sid username roomCode sockRoom rooms).result =
            .ok roomCode.toUpper ∧
          (lookupRoom (Srv.joinRoom sid username roomCode sockRoom rooms).rooms
              roomCode.toUpper).map Srv.Room.players =
            some (room.players ++ [Srv.newPlayer sid username false]) ∧
          (Srv.newPlayer sid username false).isHost = false ∧
          (Srv.newPlayer sid username false).isReady = false := by
  cases hroom : lookupRoom rooms roomCode.toUpper with
  | none => simp [Srv.joinRoom, hroom]
  | some room =>
    by_cases hgs : room.gameState = GameState.waiting
    · by_cases hlen : 2 ≤ room.players.length
      · simp [Srv.joinRoom, hroom, hgs, hlen]
      · simp [Srv.joinRoom, hroom, hgs, hlen, lookupRoom_storeRoom_self,
          Srv.newPlayer]
    · simp [Srv.joinRoom, hroom, hgs]

/-! ## C7 (amended): updateGameState on the custom server -/

/-- C7 (amended): on the custom server, updateGameState silently no-ops when
the room is absent, the sender is not a member, or the game is not playing;
when accepted it never changes `gameState` and emits exactly one
`opponentUpdated` broadcast — but via `io.to`, i.e. to ALL room members
INCLUDING the sender (`excludeSender = false`), contrary to the original
claim's "never echoed back to the sender".  (The pages-API variant excludes
the sender but relays regardless of `gameState`.) -/
theorem claim_C7 (sid : Nat) (sockRoom : Option String) (rooms : Srv.RoomsMap)
    (board : Board) (score : Int) :
    match sockRoom with
    | none =>
        Srv.updateGameState sid none rooms board score =
          { rooms := rooms, sockRoom := none, events := [], result := () }
    | some code =>
      match lookupRoom rooms code with
      | none =>
          Srv.updateGameState sid (some code) rooms board score =
            { rooms := rooms, sockRoom := some code, events := [], result := () }
      | some room =>
        match room.players.find? (fun p => p.id == sid) with
        | none =>
            Srv.updateGameState sid (some code) rooms board score =
              { rooms := rooms, sockRoom := some code, events := [], result := () }
        | some _ =>
          if room.gameState = GameState.playing then
            (lookupRoom (Srv.updateGameState sid (some code) rooms board score).rooms
                code).map Srv.Room.gameState = some room.gameState ∧
            (Srv.updateGameState sid (some code) rooms board score).events =
              [Srv.Event.opponentUpdated code false sid board score]
          else
            Srv.updateGameState sid (some code) rooms board score =
              { rooms := rooms, sockRoom := some code, events := [], result := () } := by
  cases sockRoom with
  | none => rfl
  | some code =>
    cases hroom : lookupRoom rooms code with
    | none => simp [Srv.updateGameState, hroom]
    | some room =>
      cases hfind : room.players.find? (fun p => p.id == sid) with
      | none => simp [Srv.updateGameState, hroom, hfind]
      | some p =>
        by_cases hgs : room.gameState = GameState.playing
        · simp [Srv.updateGameState, hroom, hfind, hgs, lookupRoom_storeRoom_self]
        · simp [Srv.updateGameState, hroom, hfind, hgs]

/-! ## C1 (amended): the startGame guard on the custom server -/

/-- Helper: the generated initial batch always holds exactly 3 pieces. -/
theorem Srv.generateInitialPieces_length (d : Nat) (s c : Nat → Fin 7) :
    (Srv.generateInitialPieces d s c).length = 3 := by
  simp [Srv.generateInitialPieces]

/-- Helper: the generated initial batch is never empty, so the fallback
branch of `startGame` is dead code. -/
theorem Srv.generateInitialPieces_isEmpty (d : Nat) (s c : Nat → Fin 7) :
    (Srv.generateInitialPieces d s c).isEmpty = false := by
  cases h : Srv.generateInitialPieces d s c with
  | nil =>
    have hl := Srv.generateInitialPieces_length d s c
    rw [h] at hl
    exact absurd hl (by decide)
  | cons a l => rfl

/-- C1 (amended, scoped to the custom server; the pages-API variant starts a
game without any player-count check, see `claim_C1_counterexample`): for a
room within the 2-player capacity, a startGame request succeeds — the room
turns to playing and a `gameStarted` broadcast with a 3-piece batch is
emitted — exactly when the room has exactly 2 players, every player is
ready, and the requester is the host player; in every other case the rooms
map is unchanged and nothing is broadcast. -/
theorem claim_C1 (sid : Nat) (code : String) (rooms : Srv.RoomsMap)
    (dateNow : Nat) (sd cd : Nat → Fin 7) (room : Srv.Room)
    (hroom : lookupRoom rooms code = some room)
    (hcap : room.players.length ≤ 2) :
    startGameGuardSpec sid code rooms dateNow sd cd room := by
  unfold startGameGuardSpec
  cases hfind : room.players.find? (fun q => q.id == sid) with
  | none =>
    simp only [Srv.startGameHandler, hroom, hfind]
    constructor
    · constructor
      · rintro ⟨⟨info, ps, hmem, -⟩, -⟩
        simp at hmem
      · rintro ⟨-, -, p, hp, -⟩
        exact Option.noConfusion hp
    · intro _
      exact ⟨trivial, trivial⟩
  | some player =>
    simp only [Srv.startGameHandler, hroom, hfind]
    by_cases hcond : player.isHost = true ∧ 1 < room.players.length ∧
        room.players.all (fun p => p.isReady) = true
    · rw [if_pos hcond]
      have hlt := hcond.2.1
      have hlen2 : room.players.length = 2 := by omega
      constructor
      · refine iff_of_true ⟨?_, ?_⟩ ⟨hlen2, hcond.2.2, player, rfl, hcond.1⟩
        · exact ⟨Srv.getRoomInfo (Srv.doStartGame code (some code) rooms dateNow
              sd cd).rooms code,
            Srv.generateInitialPieces dateNow sd cd,
            by simp [Srv.doStartGame, hroom, Srv.generateInitialPieces_isEmpty],
            Srv.generateInitialPieces_length dateNow sd cd⟩
        · simp [Srv.doStartGame, hroom, lookupRoom_storeRoom_self]
      · intro hng
        exact absurd ⟨hlen2, hcond.2.2, player, rfl, hcond.1⟩ hng
    · rw [if_neg hcond]
      constructor
      · constructor
        · rintro ⟨⟨info, ps, hmem, -⟩, -⟩
          simp at hmem
        · rintro ⟨hlen, hall, p, hp, hhost⟩
          injection hp with hp
          subst hp
          exact absurd ⟨hhost, by omega, hall⟩ hcond
      · intro _
        exact ⟨rfl, rfl⟩

/-- C1 witness: the host of a full, all-ready waiting room starts the game. -/
theorem claim_C1_witness :
    startGameGuardSpec 1 "AAAA" [("AAAA", Fix.sWaitingRoom)] 0
      (fun _ => 0) (fun _ => 0) Fix.sWaitingRoom :=
  claim_C1 1 "AAAA" [("AAAA", Fix.sWaitingRoom)] 0 (fun _ => 0) (fun _ => 0)
    Fix.sWaitingRoom rfl (by decide)

/-! ## C2 (amended): gameOver on the custom server -/

/-- C2 (amended, scoped to the custom server; the pages-API variant finishes
the room on the FIRST signal and crowns the signaller, see
`claim_C2_counterexample`): in a playing room whose players in room order
are p1 then p2, neither finished, and in EITHER signal order, the first
no-moves signal emits nothing and keeps the room playing; the second signal
finishes the room exactly once and broadcasts a single `gameFinished` whose
winner has the strictly greater score, ties going to p1, the first player in
room order — in particular NOT to p2 when p2 signalled first on equal
scores. -/
theorem claim_C2 (code : String) (rooms : Srv.RoomsMap) (room : Srv.Room)
    (p1 p2 : Srv.Player)
    (hroom : lookupRoom rooms code = some room)
    (hps : room.players = [p1, p2])
    (hplay : room.gameState = .playing)
    (h1 : p1.gameOver = false) (h2 : p2.gameOver = false)
    (hne : (p1.id == p2.id) = false) :
    gameOverTwoPhaseSpec code rooms p1 p2 := by
  unfold gameOverTwoPhaseSpec
  have e11 : (p1.id == p1.id) = true := by simp
  have e22 : (p2.id == p2.id) = true := by simp
  have hall2 : (([{ p1 with gameOver := true }, { p2 with gameOver := true }] :
      List Srv.Player).all (fun p => p.gameOver)) = true := by
    simp
  have hwin : Srv.winnerOf [{ p1 with gameOver := true }, { p2 with gameOver := true }] =
      some (if p2.score ≤ p1.score then { p1 with gameOver := true }
            else { p2 with gameOver := true }) := by
    by_cases hsc : p2.score ≤ p1.score
    · simp [Srv.winnerOf, Srv.sortByScoreDesc, Srv.insertByScore, hsc]
    · simp [Srv.winnerOf, Srv.sortByScoreDesc, Srv.insertByScore, hsc]
  constructor
  · -- p1 signals first, then p2
    have hfind1 : room.players.find? (fun q => q.id == p1.id) = some p1 := by
      rw [hps]
      simp [List.find?_cons, e11]
    have hsgo1 : Srv.setGameOverFirst room.players p1.id =
        [{ p1 with gameOver := true }, p2] := by
      rw [hps]
      simp [Srv.setGameOverFirst, e11]
    have hall1 : (([{ p1 with gameOver := true }, p2] : List Srv.Player).all
        (fun p => p.gameOver)) = false := by
      simp [h2]
    have hfind2 : (([{ p1 with gameOver := true }, p2] : List Srv.Player).find?
        (fun q => q.id == p2.id)) = some p2 := by
      simp [List.find?_cons, hne, e22]
    have hsgo2 : Srv.setGameOverFirst [{ p1 with gameOver := true }, p2] p2.id =
        [{ p1 with gameOver := true }, { p2 with gameOver := true }] := by
      simp [Srv.setGameOverFirst, hne, e22]
    by_cases hsc : p2.score ≤ p1.score
    · simp [Srv.gameOver, hroom, hfind1, hsgo1, hall1, hfind2, hsgo2, hall2,
        hwin, lookupRoom_storeRoom_self, hplay, hsc]
    · simp [Srv.gameOver, hroom, hfind1, hsgo1, hall1, hfind2, hsgo2, hall2,
        hwin, lookupRoom_storeRoom_self, hplay, hsc]
  · -- p2 signals first, then p1: the announced winner is the same
    have hfind1 : room.players.find? (fun q => q.id == p2.id) = some p2 := by
      rw [hps]
      simp [List.find?_cons, hne, e22]
    have hsgo1 : Srv.setGameOverFirst room.players p2.id =
        [p1, { p2 with gameOver := true }] := by
      rw [hps]
      simp [Srv.setGameOverFirst, hne, e22]
    have hall1 : (([p1, { p2 with gameOver := true }] : List Srv.Player).all
        (fun p => p.gameOver)) = false := by
      simp [h1]
    have hfind2 : (([p1, { p2 with gameOver := true }] : List Srv.Player).find?
        (fun q => q.id == p1.id)) = some p1 := by
      simp [List.find?_cons, e11]
    have hsgo2 : Srv.setGameOverFirst [p1, { p2 with gameOver := true }] p1.id =
        [{ p1 with gameOver := true }, { p2 with gameOver := true }] := by
      simp [Srv.setGameOverFirst, e11]
    by_cases hsc : p2.score ≤ p1.score
    · simp [Srv.gameOver, hroom, hfind1, hsgo1, hall1, hfind2, hsgo2, hall2,
        hwin, lookupRoom_storeRoom_self, hplay, hsc]
    · simp [Srv.gameOver, hroom, hfind1, hsgo1, hall1, hfind2, hsgo2, hall2,
        hwin, lookupRoom_storeRoom_self, hplay, hsc]

/-- C2 witness: first, Alice and Bob tied at 0 — even in the signal order
where Bob (room-order second) signals first, the announced winner is Alice,
the first player in room order; second, Bob holding the strictly higher
score 7 wins in both signal orders. -/
theorem claim_C2_witness :
    gameOverTwoPhaseSpec "AAAA" [("AAAA", Fix.sPlayingRoom)] Fix.sAlice Fix.sBob ∧
    gameOverTwoPhaseSpec "AAAA" [("AAAA", Fix.sBob7Room)] Fix.sAlice
      { Fix.sBob with score := 7 } :=
  ⟨claim_C2 "AAAA" [("AAAA", Fix.sPlayingRoom)] Fix.sPlayingRoom Fix.sAlice
      Fix.sBob rfl rfl rfl rfl rfl rfl,
   claim_C2 "AAAA" [("AAAA", Fix.sBob7Room)] Fix.sBob7Room Fix.sAlice
      { Fix.sBob with score := 7 } rfl rfl rfl rfl rfl rfl⟩

end Bloc
